import Mathlib

/-!
Verification of the WechatRobot inbound-message gateway against its
natural-language specification.

The Python source is embedded shallowly:
- Python `str` values are modelled as `List Char` where iteration order
  matters (Python iterates strings by Unicode codepoint), and as `String`
  where only concatenation and equality matter;
- Python dictionaries with a fixed key set are modelled as structures whose
  fields are `Option`-valued (`none` = key absent);
- a raised Python exception escaping a function is modelled as
  `Except PyExn`;
- external effects (the hash function, the crypto library, the HTTP clients,
  environment variables, wall-clock time) are parameters of the embedded
  functions, mirroring the spec's boundary: those collaborators are out of
  scope and only their call sites are modelled.
-/

namespace WechatRobot

/-- A Python exception value escaping a function uncaught. -/
inductive PyExn where
  | parseError (msg : String)
  | attributeError (msg : String)
  | keyError (msg : String)
  | valueError (msg : String)
  | exn (msg : String)
deriving Repr, DecidableEq

/-- UTF-8 byte length of a sequence of codepoints: the running total that
`split_content` tracks via `len(char.encode('utf-8'))`. -/
def utf8Len (cs : List Char) : Nat :=
  (cs.map Char.utf8Size).sum

/-- The loop of `BaseSourceAdapter.split_content`
(`src/app/adapters/source_adapters/base_adapter.py`, lines 59-74): iterate
the text by codepoint, tracking the current chunk and its running byte size;
when the next codepoint would push the running size over `maxLength`, close
the current chunk (as accumulated so far, possibly empty) and start a new one
with that codepoint; after the loop, append the final chunk only if it is
non-empty (`if current_chunk:`). -/
def splitLoop (maxLength : Nat) : List Char → List Char → Nat → List (List Char)
  | [], currentChunk, _ =>
      if currentChunk.isEmpty then [] else [currentChunk]
  | c :: rest, currentChunk, currentSize =>
      let charSize := c.utf8Size
      if currentSize + charSize > maxLength then
        currentChunk :: splitLoop maxLength rest [c] charSize
      else
        splitLoop maxLength rest (currentChunk ++ [c]) (currentSize + charSize)

/-- `BaseSourceAdapter.split_content(content, max_length=2030)`. -/
def split_content (content : List Char) (maxLength : Nat := 2030) : List (List Char) :=
  splitLoop maxLength content [] 0

theorem splitLoop_flatten (L : Nat) :
    ∀ (cs currentChunk : List Char) (currentSize : Nat),
      (splitLoop L cs currentChunk currentSize).flatten = currentChunk ++ cs := by
  intro cs
  induction cs with
  | nil =>
      intro currentChunk currentSize
      by_cases h : currentChunk.isEmpty
      · simp [splitLoop, h, List.isEmpty_iff.mp h]
      · simp [splitLoop, h]
  | cons c rest ih =>
      intro currentChunk currentSize
      by_cases h : currentSize + c.utf8Size > L
      · simp [splitLoop, h, ih]
      · simp [splitLoop, h, ih]

theorem splitLoop_size_le (L : Nat) :
    ∀ (cs currentChunk : List Char) (currentSize : Nat),
      (∀ c ∈ cs, c.utf8Size ≤ L) →
      currentSize = utf8Len currentChunk →
      currentSize ≤ L →
      ∀ chunk ∈ splitLoop L cs currentChunk currentSize, utf8Len chunk ≤ L := by
  intro cs
  induction cs with
  | nil =>
      intro currentChunk currentSize _ hsize hle chunk hmem
      by_cases h : currentChunk.isEmpty
      · simp [splitLoop, h] at hmem
      · simp [splitLoop, h] at hmem
        subst hmem
        exact hsize ▸ hle
  | cons c rest ih =>
      intro currentChunk currentSize hall hsize hle chunk hmem
      have hc : c.utf8Size ≤ L := hall c (List.mem_cons_self c rest)
      have hrest : ∀ x ∈ rest, x.utf8Size ≤ L :=
        fun x hx => hall x (List.mem_cons_of_mem c hx)
      by_cases h : currentSize + c.utf8Size > L
      · simp only [splitLoop, h, if_pos] at hmem
        rcases List.mem_cons.mp hmem with hchunk | hchunk
        · subst hchunk
          exact hsize ▸ hle
        · exact ih [c] c.utf8Size hrest (by simp [utf8Len]) hc chunk hchunk
      · simp only [splitLoop, h, if_neg, not_false_iff] at hmem
        have hsize2 : currentSize + c.utf8Size = utf8Len (currentChunk ++ [c]) := by
          simp [utf8Len, hsize]
        exact ih (currentChunk ++ [c]) (currentSize + c.utf8Size) hrest hsize2
          (Nat.le_of_not_lt h) chunk hmem

theorem splitLoop_ne_nil (L : Nat) :
    ∀ (cs currentChunk : List Char) (currentSize : Nat),
      (∀ c ∈ cs, c.utf8Size ≤ L) →
      currentSize = utf8Len currentChunk →
      ∀ chunk ∈ splitLoop L cs currentChunk currentSize, chunk ≠ [] := by
  intro cs
  induction cs with
  | nil =>
      intro currentChunk currentSize _ _ chunk hmem
      by_cases h : currentChunk.isEmpty
      · simp [splitLoop, h] at hmem
      · simp [splitLoop, h] at hmem
        subst hmem
        exact fun hnil => h (by simp [hnil])
  | cons c rest ih =>
      intro currentChunk currentSize hall hsize chunk hmem
      have hc : c.utf8Size ≤ L := hall c (List.mem_cons_self c rest)
      have hrest : ∀ x ∈ rest, x.utf8Size ≤ L :=
        fun x hx => hall x (List.mem_cons_of_mem c hx)
      by_cases h : currentSize + c.utf8Size > L
      · simp only [splitLoop, h, if_pos] at hmem
        rcases List.mem_cons.mp hmem with hchunk | hchunk
        · subst hchunk
          intro hnil
          rw [hnil] at hsize
          simp [utf8Len] at hsize
          rw [hsize] at h
          exact absurd hc (by omega)
        · exact ih [c] c.utf8Size hrest (by simp [utf8Len]) chunk hchunk
      · simp only [splitLoop, h, if_neg, not_false_iff] at hmem
        exact ih (currentChunk ++ [c]) (currentSize + c.utf8Size) hrest
          (by simp [utf8Len, hsize]) chunk hmem

/-- An HTTP response as Flask materialises it: a body and a status code.
Returning a plain string from a Flask view yields that body with status 200;
`make_response(body, status)` yields the pair explicitly. -/
structure HttpResponse where
  body : String
  status : Nat
deriving Repr, DecidableEq

/-- Python `list.sort()` on strings: stable ascending sort under the
codepoint-lexicographic order (Lean's `LinearOrder String` compares the
same way). -/
def sortStrings (l : List String) : List String :=
  l.insertionSort (fun s t => s ≤ t)

/-- `WechatAdapter.verify` (wechat_adapter.py, lines 17-49): read
`signature`, `timestamp`, `nonce`, `echostr` from the query string, sort
`[token, timestamp, nonce]` lexicographically, join, hash, and compare the
hex digest against the supplied signature; on match return the echo string
(status 200), on mismatch return "Verification failed" with status 403.
`sha1Hex` stands for the external
`hashlib.sha1(s.encode('utf-8')).hexdigest()`. -/
def wechat_verify (sha1Hex : String → String) (token : String)
    (signature timestamp nonce echostr : String) : HttpResponse :=
  let tempList := sortStrings [token, timestamp, nonce]
  let tempStr := String.join tempList
  let hashcode := sha1Hex tempStr
  if hashcode = signature then
    { body := echostr, status := 200 }
  else
    { body := "Verification failed", status := 403 }

/-- Rendering of a string-or-None Python value inside an f-string:
`None` renders as the text "None". -/
def pyStr : Option String → String
  | none => "None"
  | some s => s

/-- The parameter dictionary built by the adapters' `extract_params` and
consumed by the provider handlers. A field value `none` means the key is
absent from the dictionary; `some v` means the key is present holding `v`.
For string-valued keys `v : Option String` further distinguishes a present
key holding Python `None` (as `.text` of an empty XML element yields) from
one holding a string. -/
structure Params where
  msg_type : Option (Option String) := none
  from_user : Option (Option String) := none
  to_user : Option (Option String) := none
  create_time : Option Int := none
  content : Option (Option String) := none
  pic_url : Option (Option String) := none
  media_id : Option (Option String) := none
  event : Option (Option String) := none
  event_key : Option (Option String) := none
  error : Option String := none
  source : Option String := none
deriving Repr, DecidableEq

/-- `params[key]` on an `Option`-modelled key: raises `KeyError` when the
key is absent, otherwise yields the stored value. -/
def dictGet {α : Type} (v : Option α) (key : String) : Except PyExn α :=
  match v with
  | none => .error (.keyError key)
  | some x => .ok x

/-- The result dictionary a provider handler's `process` returns:
`content` is `none` when the key is absent (as in the async returns of the
Groq/Tencent/Tongyiqianwen/Geekai services, where the `'content'` line is
commented out). The Python key `'async'` is modelled as `isAsync`. -/
structure ProcResult where
  content : Option String := none
  provider : String
  model : Option String
  isAsync : Bool
deriving Repr, DecidableEq

/-- The keyword arguments of `_process_request_task.delay(...)`: the
serialized deferred job handed to the Celery queue. -/
structure DeferredJob where
  user_id : Option String
  query : Option String
  model : Option String
  source : String
deriving Repr, DecidableEq

/-- `GroqProvider.process` (groq_service.py, lines 25-57). Returns the
result dictionary paired with the deferred job handed to
`_process_request_task.delay`, if any (`none` = nothing enqueued). If the
`'content'` key is absent a synchronous text-only notice is returned;
otherwise the job is enqueued (reading `params['from_user']` and
`params['source']`, which raise `KeyError` when absent) and the immediate
return has `async=True` and no `'content'` key. -/
def groqProcess (model : Option String) (params : Params) :
    Except PyExn (ProcResult × Option DeferredJob) :=
  match params.content with
  | none =>
      .ok ({ content := some "Sorry, I can only process text messages.",
             provider := "Groq", model := model, isAsync := false }, none)
  | some q => do
      let fu ← dictGet params.from_user "from_user"
      let src ← dictGet params.source "source"
      .ok ({ content := none, provider := "Groq/" ++ pyStr model,
             model := model, isAsync := true },
           some { user_id := fu, query := q, model := model, source := src })

/-- `TencentProvider.process` (tencent_service.py, lines 27-59): identical
control flow to `GroqProvider.process` with Tencent-specific labels. -/
def tencentProcess (model : Option String) (params : Params) :
    Except PyExn (ProcResult × Option DeferredJob) :=
  match params.content with
  | none =>
      .ok ({ content := some "Sorry, I can only process text messages.",
             provider := "Tencent", model := model, isAsync := false }, none)
  | some q => do
      let fu ← dictGet params.from_user "from_user"
      let src ← dictGet params.source "source"
      .ok ({ content := none, provider := "Tencent/" ++ pyStr model,
             model := model, isAsync := true },
           some { user_id := fu, query := q, model := model, source := src })

/-- The view `WechatAdapter.extract_params` has of a request body after
`ET.fromstring`: for each tag the adapter reads, `none` when
`root.find(tag)` finds no element (so that `.text` raises
`AttributeError`), and `some t` when the element exists with text `t`
(`t = none` models Python `None`, the text of an empty element). The whole
document is `none` when the body is not well-formed XML, in which case
`ET.fromstring` raises `ParseError`. -/
structure WechatXml where
  msg_type : Option (Option String) := none
  from_user : Option (Option String) := none
  to_user : Option (Option String) := none
  create_time : Option (Option String) := none
  content : Option (Option String) := none
  pic_url : Option (Option String) := none
  media_id : Option (Option String) := none
  event : Option (Option String) := none
deriving Repr, DecidableEq

/-- `root.find(tag).text`: raises `AttributeError` when the element is
missing (`find` returned `None`). -/
def elemText (e : Option (Option String)) (tag : String) : Except PyExn (Option String) :=
  match e with
  | none => .error (.attributeError ("NoneType object has no attribute text: " ++ tag))
  | some t => .ok t

/-- Accumulate decimal digits; `none` as soon as a non-digit appears. -/
def digitsToNat : List Char → Nat → Option Nat
  | [], acc => some acc
  | c :: cs, acc =>
      if '0' ≤ c ∧ c ≤ '9' then digitsToNat cs (acc * 10 + (c.toNat - 48))
      else none

/-- Python `int(x)` on a string-or-None value: `TypeError` on `None`,
`ValueError` on a non-numeric string. The accepted grammar is approximated
by optional minus sign plus decimal digits (Python also strips whitespace
and accepts a plus sign; no claim depends on the exact grammar). -/
def pyInt (v : Option String) : Except PyExn Int :=
  match v with
  | none => .error (.exn "TypeError: int() argument must be a string")
  | some s =>
      match s.data with
      | [] => .error (.valueError ("invalid literal for int(): " ++ s))
      | '-' :: rest =>
          match rest, digitsToNat rest 0 with
          | _ :: _, some n => .ok (-(n : Int))
          | _, _ => .error (.valueError ("invalid literal for int(): " ++ s))
      | cs =>
          match digitsToNat cs 0 with
          | some n => .ok (n : Int)
          | none => .error (.valueError ("invalid literal for int(): " ++ s))

/-- `WechatAdapter.extract_params` (wechat_adapter.py, lines 51-80): parse
the body (no try/except anywhere in the method, so every failure —
unparseable XML, missing mandatory tag, non-numeric CreateTime —
propagates to the caller as an uncaught exception), then populate the
type-specific key for text/image/event messages; any other message type
yields only the four common keys. -/
def wechat_extract_params (xml : Option WechatXml) : Except PyExn Params := do
  match xml with
  | none => .error (.parseError "ET.fromstring")
  | some root => do
      let msgType ← elemText root.msg_type "MsgType"
      let fromUser ← elemText root.from_user "FromUserName"
      let toUser ← elemText root.to_user "ToUserName"
      let createTimeText ← elemText root.create_time "CreateTime"
      let createTime ← pyInt createTimeText
      let base : Params :=
        { msg_type := some msgType, from_user := some fromUser,
          to_user := some toUser, create_time := some createTime }
      if msgType = some "text" then do
        let c ← elemText root.content "Content"
        .ok { base with content := some c }
      else if msgType = some "image" then do
        let p ← elemText root.pic_url "PicUrl"
        let m ← elemText root.media_id "MediaId"
        .ok { base with pic_url := some p, media_id := some m }
      else if msgType = some "event" then do
        let e ← elemText root.event "Event"
        .ok { base with event := some e }
      else
        .ok base

/-- The message object `parse_message` yields for a successfully decrypted
WeCom request; `key` is `none` when the message object lacks a `key`
attribute (`getattr(msg, 'key', '')` then defaults). -/
structure WecomMsg where
  type : String
  source : String
  target : String
  create_time : Int
  content : String
  media_id : String
  event : String
  key : Option String
deriving Repr, DecidableEq

/-- `WecomAdapter.extract_params` (wecom_adapter.py, lines 86-136): the
whole body sits in a try/except, so a failure of
`crypto.decrypt_message`/`parse_message` (the `.error` case of the input,
both calls being external) is caught and surfaced in-band as a dictionary
holding only the `'error'` key with the exception text. -/
def wecom_extract_params (input : Except String WecomMsg) : Params :=
  match input with
  | .error e => { error := some e }
  | .ok msg =>
      let base : Params :=
        { msg_type := some (some msg.type), from_user := some (some msg.source),
          to_user := some (some msg.target), create_time := some msg.create_time }
      if msg.type = "text" then
        { base with content := some (some msg.content) }
      else if msg.type = "image" then
        { base with media_id := some (some msg.media_id) }
      else if msg.type = "event" then
        { base with
            event := some (some msg.event),
            event_key := some (some (match msg.key with | some k => k | none => "")) }
      else
        base

/-- `WechatAdapter._build_text_response` (wechat_adapter.py, lines
103-133): despite its name and docstring ("Build a text response in WeChat
XML format", with `content` documented as "The message content"), the
active body returns a fixed image envelope with a hardcoded `MediaId`; the
text envelope that would embed `content` is commented out, and the
`content` argument is never used. `ts` stands for `int(time.time())`. -/
def wechat_build_text_response (from_user to_user content : String) (ts : Nat) : String :=
  "\n<xml>\n    <ToUserName><![CDATA[" ++ to_user ++
    "]]></ToUserName>\n    <FromUserName><![CDATA[" ++ from_user ++
    "]]></FromUserName>\n    <CreateTime>" ++ toString ts ++
    "</CreateTime>\n    <MsgType><![CDATA[image]]></MsgType>\n    <Image>\n        <MediaId><![CDATA[kaMSmt1j23Az0YO9YonIwAxlsBmITjQUf_7ggkVu4E3rpxhJqXjBhefOBho46nIJ]]></MediaId>\n    </Image>\n</xml>"

/-- `WechatAdapter.format_response` (wechat_adapter.py, lines 82-101):
for an async result build the reply around the fixed placeholder
"正在思考，请稍候..."; otherwise around `result.get('content', 'No response
from AI provider')`. Reading `params['to_user']`/`params['from_user']`
raises `KeyError` when absent (no handler in the method). -/
def wechat_format_response (result : ProcResult) (params : Params) (ts : Nat) :
    Except PyExn HttpResponse :=
  if result.isAsync then do
    let tu ← dictGet params.to_user "to_user"
    let fu ← dictGet params.from_user "from_user"
    .ok { body := wechat_build_text_response (pyStr tu) (pyStr fu) "正在思考，请稍候..." ts,
          status := 200 }
  else do
    let tu ← dictGet params.to_user "to_user"
    let fu ← dictGet params.from_user "from_user"
    let responseText :=
      match result.content with
      | some c => c
      | none => "No response from AI provider"
    .ok { body := wechat_build_text_response (pyStr tu) (pyStr fu) responseText ts,
          status := 200 }

/-- `WecomAdapter.format_response` (wecom_adapter.py, lines 138-170):
always builds the plaintext reply embedding the fixed placeholder
"正在思考，请稍候..." (the `result` argument is unused), encrypts it with the
external `crypto.encrypt_message` (modelled by the `encrypt` parameter),
and returns it; a `KeyError` on `params['from_user']`/`params['to_user']`
is caught by the method's try/except, which returns a 500 response. -/
def wecom_format_response (encrypt : String → String) (result : ProcResult)
    (params : Params) (ts : Nat) : HttpResponse :=
  match params.from_user, params.to_user with
  | some fu, some tu =>
      { body := encrypt
          ("<xml>\n                <ToUserName><![CDATA[" ++ pyStr fu ++
           "]]></ToUserName>\n                <FromUserName><![CDATA[" ++ pyStr tu ++
           "]]></FromUserName>\n                <CreateTime>" ++ toString ts ++
           "</CreateTime>\n                <MsgType><![CDATA[text]]></MsgType>\n                <Content><![CDATA[正在思考，请稍候...]]></Content>\n            </xml>"),
        status := 200 }
  | _, _ => { body := "Error processing request", status := 500 }

/-- Substring occurrence test on codepoint sequences (used to state that a
response body does not contain a given text). -/
def charsContain (pat : List Char) : List Char → Bool
  | [] => pat.isEmpty
  | c :: rest => ((c :: rest).take pat.length == pat) || charsContain pat rest

/-- ASCII lowering of one character (Python `str.lower()` also lowers
non-ASCII letters; every source/provider name in the repository is
ASCII, so no claim depends on the difference). -/
def pyCharLower (c : Char) : Char :=
  if 'A' ≤ c ∧ c ≤ 'Z' then Char.ofNat (c.toNat + 32) else c

/-- Python `s.lower()`. -/
def pyLower (s : String) : String :=
  ⟨s.data.map pyCharLower⟩

/-- The adapter classes `SourceProcessor._load_adapter` can resolve. -/
inductive AdapterKind where
  | wechat
  | wecom
deriving Repr, DecidableEq

/-- The provider service classes `_create_provider_handler` can resolve:
one per `app/services/provider_services/<p>_service.py` module defining a
`<P>Provider` class. -/
inductive ProviderKind where
  | groq
  | tencent
  | deepseek
  | geekai
  | tongyiqianwen
deriving Repr, DecidableEq

/-- A constructed provider service instance: its kind and its `self.model`
field after `__init__` ran. -/
structure ProviderHandler where
  kind : ProviderKind
  model : Option String
deriving Repr, DecidableEq

/-- `SourceProcessor._load_adapter` (source_processor.py, lines 20-34):
lowercase the source name, import `app.adapters.source_adapters.
<source>_adapter` and fetch class `<Source>Adapter`; an `ImportError` or
`AttributeError` (unknown module or class) is caught and re-raised as
`ValueError`. The repository ships exactly the `wechat` and `wecom`
adapter modules with matching class names. -/
def loadAdapter (source : String) : Except PyExn AdapterKind :=
  let s := pyLower source
  if s = "wechat" then .ok .wechat
  else if s = "wecom" then .ok .wecom
  else .error (.valueError ("Unsupported source type: " ++ s))

/-- The attribute names class `Config` defines (config.py, lines 7-83),
in source order. Values are environment-derived (`os.environ.get`) except
the Celery literals; no claim depends on any value, only on which
attributes exist, so all values are modelled through the `env` lookup. -/
def configAttrs : List String :=
  ["SECRET_KEY",
   "CELERY_BROKER_URL", "CELERY_RESULT_BACKEND", "CELERY_TASK_SERIALIZER",
   "CELERY_RESULT_SERIALIZER", "CELERY_ACCEPT_CONTENT", "CELERY_TIMEZONE",
   "CELERY_ENABLE_UTC",
   "WECHAT_TOKEN", "WECHAT_APP_ID", "WECHAT_APP_SECRET",
   "WECOM_TOKEN", "WECOM_ENCODING_AES_KEY", "WECOM_CORP_ID",
   "WECOM_APP_SECRET_DEFAULT", "WECOM_AGENT_ID_DEFAULT",
   "WECOM_APP_SECRET_GROQ_DEEPSEEK_R1_DISTILL_LLAMA_70B",
   "WECOM_AGENT_ID_GROQ_DEEPSEEK_R1_DISTILL_LLAMA_70B",
   "WECOM_APP_SECRET_TONGYIQIANWEN_QWQ_PLUS",
   "WECOM_AGENT_ID_TONGYIQIANWEN_QWQ_PLUS",
   "WECOM_APP_SECRET_DEEPSEEK_DS_V3", "WECOM_AGENT_ID_DEEPSEEK_DS_V3",
   "WECOM_APP_SECRET_TENCENT_DS_R1_671B", "WECOM_AGENT_ID_TENCENT_DS_R1_671B",
   "WECOM_APP_SECRET_GEEKAI_GEMMA_3_27B_IT_FREE",
   "WECOM_AGENT_ID_GEEKAI_GEMMA_3_27B_IT_FREE",
   "WECOM_APP_SECRET_GEEKAI_MISTRAL_SMALL_FREE",
   "WECOM_AGENT_ID_GEEKAI_MISTRAL_SMALL_FREE",
   "DEEPSEEK_API_BASE", "DEEPSEEK_API_KEY", "DEEPSEEK_DS_V3",
   "GROQ_API_KEY", "GROQ_DS_R1_70B_MODEL",
   "GEEK_API_KEY", "GEEK_API_KEY_2", "GEEK_API_BASE",
   "GEEK_MODEL_QWQ_PLUS", "GEEK_MODEL_GEMMA_27B",
   "TENCENT_API_BASE", "TENCENT_API_KEY", "TENCENT_MODEL_DEEPSEEK_R1_671B",
   "HTTP_PROXY", "TENCENT_MODEL"]

/-- `getattr(Config, name)`: the environment-derived value for a defined
attribute, `AttributeError` for an undefined one. -/
def configGetattr (env : String → Option String) (name : String) :
    Except PyExn (Option String) :=
  if name ∈ configAttrs then .ok (env name)
  else .error (.attributeError ("type object Config has no attribute " ++ name))

/-- The `Config` attribute each provider's `__init__` reads for its default
model: `GroqProvider` reads `GROQ_DS_R1_70B_MODEL` (groq_service.py:23),
`TencentProvider` reads `TENCENT_MODEL_DEEPSEEK_R1_671B`
(tencent_service.py:25), `DeepseekProvider` reads `DEEPSEEK_CHAT`
(deepseek_service.py:23), `GeekaiProvider` reads `GEEK_MODEL_GEMMA_27B`
(geekai_service.py:23), `TongyiqianwenProvider` reads
`GEEK_MODEL_QWQ_PLUS` (tongyiqianwen_service.py:23). -/
def providerDefaultModelAttr : ProviderKind → String
  | .groq => "GROQ_DS_R1_70B_MODEL"
  | .tencent => "TENCENT_MODEL_DEEPSEEK_R1_671B"
  | .deepseek => "DEEPSEEK_CHAT"
  | .geekai => "GEEK_MODEL_GEMMA_27B"
  | .tongyiqianwen => "GEEK_MODEL_QWQ_PLUS"

/-- The `__init__` shared verbatim (up to the attribute name above) by the
five provider services: `self.model = model; if not self.model:
self.model = Config.<attr>`. Python `not` treats both `None` and the empty
string as falsy. -/
def providerInit (env : String → Option String) (kind : ProviderKind)
    (model : Option String) : Except PyExn ProviderHandler :=
  let falsy := match model with | none => true | some s => s = ""
  if falsy then do
    let d ← configGetattr env (providerDefaultModelAttr kind)
    .ok { kind := kind, model := d }
  else
    .ok { kind := kind, model := model }

/-- The registry `_create_provider_handler`'s dynamic import realises: the
lowercased provider names whose `<p>_service` module defines a
`<P>Provider` class. -/
def providerKindOfName : String → Option ProviderKind
  | "groq" => some .groq
  | "tencent" => some .tencent
  | "deepseek" => some .deepseek
  | "geekai" => some .geekai
  | "tongyiqianwen" => some .tongyiqianwen
  | _ => none

/-- `SourceProcessor._create_provider_handler` (source_processor.py, lines
81-100): lowercase the name, import the service module, fetch the class and
instantiate it with the model; `ImportError`/`AttributeError` — whether from
the lookup or from inside `provider_class(model)` — is caught and re-raised
as `ValueError` naming the original provider string. -/
def create_provider_handler (env : String → Option String) (provider : String)
    (model : Option String) : Except PyExn ProviderHandler :=
  match providerKindOfName (pyLower provider) with
  | none => .error (.valueError ("Unsupported provider: " ++ provider))
  | some kind =>
      match providerInit env kind model with
      | .error (.attributeError _) =>
          .error (.valueError ("Unsupported provider: " ++ provider))
      | r => r

/-- The resolution performed on the dispatch path (`handle_request` →
`SourceProcessor.__init__` → `_create_provider_handler`): neither
`handle_request` (router.py, lines 22-48) nor any code above it installs an
exception handler, so a `ValueError` raised by either lookup propagates out
of the embedded pipeline (`Except.error`) instead of being mapped to an
HTTP response by the program. -/
def resolve (env : String → Option String) (source provider : String)
    (model : Option String) : Except PyExn (AdapterKind × ProviderHandler) := do
  let a ← loadAdapter source
  let h ← create_provider_handler env provider model
  .ok (a, h)

/-- The dispatch trace of one POST request: whether the provider handler's
`process` ran, the job it enqueued (if any), and the HTTP response. -/
structure DispatchTrace where
  processCalled : Bool
  enqueued : Option DeferredJob
  response : HttpResponse
deriving Repr, DecidableEq

/-- The POST branch of `handle_request` (router.py, lines 41-46) for the
wecom adapter and the Groq provider: `extract_params` (total for wecom),
then — unconditionally, with no check of the extraction outcome —
`SourceProcessor.process`, which creates the handler, calls its `process`
and formats the result. -/
def handle_post_wecom_groq (encrypt : String → String)
    (model : Option String) (ts : Nat) (raw : Except String WecomMsg) :
    Except PyExn DispatchTrace := do
  let params0 := wecom_extract_params raw
  let params := { params0 with source := some "wecom" }
  let (result, job) ← groqProcess model params
  let resp := wecom_format_response encrypt result params ts
  .ok { processCalled := true, enqueued := job, response := resp }

/-- The POST branch of `handle_request` for the wechat adapter and the Groq
provider: `extract_params` may raise (wechat has no try/except), and the
router installs no handler, so the exception escapes the whole request
handler; on success `process` and `format_response` run unconditionally. -/
def handle_post_wechat_groq (model : Option String) (ts : Nat)
    (raw : Option WechatXml) : Except PyExn DispatchTrace := do
  let params0 ← wechat_extract_params raw
  let params := { params0 with source := some "wechat" }
  let (result, job) ← groqProcess model params
  let resp ← wechat_format_response result params ts
  .ok { processCalled := true, enqueued := job, response := resp }

/-- Oracle for the external effects a deferred Celery task performs:
the outcome of the backend completion call (with streamed chunks already
accumulated into one string, as the task's loop does), of constructing the
platform adapter on the success path, and of constructing it inside the
error-notification handler. `adapter.send_message` itself never raises (its
whole body is wrapped in try/except returning a Bool), so only its boolean
outcome is recorded. -/
structure TaskEnv where
  backend : Except String String
  adapterInit : Except String Unit
  sendResult : Bool
  notifyAdapterInit : Except String Unit
  notifySendResult : Bool
deriving Repr

/-- One invocation of `adapter.send_message(user_id, message, model)`;
`model` is "Unknown" when the call leaves it defaulted, as the
error-notification calls do. -/
structure SendCall where
  user_id : String
  message : String
  model : String
deriving Repr, DecidableEq

/-- The observable behaviour of one deferred task execution: the
`send_message` invocations it made, whether the error-notification handler
ran, and the exception escaping the task, if any. -/
structure TaskTrace where
  sends : List SendCall
  notifyTried : Bool
  raised : Option String
deriving Repr, DecidableEq

/-- The error notice `GroqProvider._process_request_task` sends
(groq_service.py:144). -/
def groqErrorNotice (e : String) : String :=
  "Sorry, there was an error processing your request with Groq: " ++ e

/-- The error notice `TencentProvider._process_request_task` sends
(tencent_service.py:158). -/
def tencentErrorNotice (e : String) : String :=
  "Sorry, there was an error processing your request with Tencent: " ++ e

/-- The outer try-block of `GroqProvider._process_request_task`
(groq_service.py, lines 82-129): backend call, adapter construction by
source name (an unknown source logs and returns without sending), then one
`send_message` with the full content and the "Groq/<model>" label. An
`Except.error` is an exception reaching the outer `except`. (Constructing
`WechatAdapter` has no failing code; giving both adapters the same
`adapterInit` oracle only enlarges the set of traces quantified over.) -/
def groqTaskBody (env : TaskEnv) (user_id query model source : String) :
    Except String (List SendCall) :=
  match env.backend with
  | .error e => .error e
  | .ok full_content =>
      if source = "wechat" ∨ source = "wecom" then
        match env.adapterInit with
        | .error e => .error e
        | .ok _ => .ok [{ user_id := user_id, message := full_content,
                          model := "Groq/" ++ model }]
      else .ok []

/-- `GroqProvider._process_request_task` (groq_service.py, lines 72-146):
the outer `except Exception` catches any failure of the try-block, logs it,
and runs a nested try that rebuilds the adapter and sends a single error
notice; the nested bare `except` swallows any failure of that attempt
(logging only), so no exception ever escapes the task. -/
def groqTask (env : TaskEnv) (user_id query model source : String) : TaskTrace :=
  match groqTaskBody env user_id query model source with
  | .ok calls => { sends := calls, notifyTried := false, raised := none }
  | .error e =>
      if source = "wechat" ∨ source = "wecom" then
        match env.notifyAdapterInit with
        | .ok _ => { sends := [{ user_id := user_id, message := groqErrorNotice e,
                                 model := "Unknown" }],
                     notifyTried := true, raised := none }
        | .error _ => { sends := [], notifyTried := true, raised := none }
      else { sends := [], notifyTried := true, raised := none }

/-- The outer try-block of `TencentProvider._process_request_task`
(tencent_service.py, lines 71-143): same control flow as the Groq task;
the streamed reasoning/answer accumulation happens before the send and is
absorbed into the oracle's `backend` string. -/
def tencentTaskBody (env : TaskEnv) (user_id query model source : String) :
    Except String (List SendCall) :=
  match env.backend with
  | .error e => .error e
  | .ok full_content =>
      if source = "wechat" ∨ source = "wecom" then
        match env.adapterInit with
        | .error e => .error e
        | .ok _ => .ok [{ user_id := user_id, message := full_content,
                          model := "Tencent/" ++ model }]
      else .ok []

/-- `TencentProvider._process_request_task` (tencent_service.py, lines
61-160): outer `except Exception` plus nested try with a bare `except`,
exactly as in the Groq task, with the Tencent error notice. -/
def tencentTask (env : TaskEnv) (user_id query model source : String) : TaskTrace :=
  match tencentTaskBody env user_id query model source with
  | .ok calls => { sends := calls, notifyTried := false, raised := none }
  | .error e =>
      if source = "wechat" ∨ source = "wecom" then
        match env.notifyAdapterInit with
        | .ok _ => { sends := [{ user_id := user_id, message := tencentErrorNotice e,
                                 model := "Unknown" }],
                     notifyTried := true, raised := none }
        | .error _ => { sends := [], notifyTried := true, raised := none }
      else { sends := [], notifyTried := true, raised := none }

theorem sortStrings_sorted_perm (l : List String) :
    (sortStrings l).Sorted (fun s t => s ≤ t) ∧ (sortStrings l).Perm l :=
  ⟨List.sorted_insertionSort _ l, List.perm_insertionSort _ l⟩

/-- Claim C1, counterexample: the claim quantifies over every byte limit L,
but for L = 1 and input "é" (one two-byte codepoint) `split_content` emits
the empty string as its first chunk, and its second chunk "é" has a two-byte
UTF-8 encoding exceeding L. -/
theorem chunking_claim_counterexample :
    split_content ['é'] 1 = [[], ['é']] ∧
    ¬ (∀ chunk ∈ split_content ['é'] 1, utf8Len chunk ≤ 1 ∧ chunk ≠ []) := by
  constructor
  · rfl
  · decide

/-- Claim C1, amended: for every input string and every byte limit L large
enough that each codepoint of the input encodes in at most L UTF-8 bytes
(true of every configured limit in the repository, 2000 and 2030, since a
codepoint occupies at most 4 bytes), every chunk produced by `split_content`
has UTF-8 size at most L and is non-empty, and an empty input yields zero
chunks. -/
theorem chunking_bounds_amended (content : List Char) (L : Nat)
    (hfit : ∀ c ∈ content, c.utf8Size ≤ L) :
    (∀ chunk ∈ split_content content L, utf8Len chunk ≤ L ∧ chunk ≠ []) ∧
    (content = [] → split_content content L = []) := by
  constructor
  · intro chunk hmem
    exact ⟨splitLoop_size_le L content [] 0 hfit rfl (Nat.zero_le L) chunk hmem,
           splitLoop_ne_nil L content [] 0 hfit rfl chunk hmem⟩
  · intro h
    subst h
    rfl

/-- Witness for the amended C1 theorem at the concrete input "hé" with
limit 2. -/
theorem chunking_bounds_amended_witness :
    (∀ c ∈ ['h', 'é'], c.utf8Size ≤ 2) ∧
    (∀ chunk ∈ split_content ['h', 'é'] 2, utf8Len chunk ≤ 2 ∧ chunk ≠ []) := by
  refine ⟨by decide, ?_⟩
  exact (chunking_bounds_amended ['h', 'é'] 2 (by decide)).1

/-- Claim C2: for every input string and every byte limit L, concatenating
in order the chunks produced by `split_content` reproduces the original
string exactly: no codepoint is lost, duplicated, reordered, or split across
two chunks. -/
theorem chunking_concat (content : List Char) (L : Nat) :
    (split_content content L).flatten = content := by
  simpa using splitLoop_flatten L content [] 0

/-- Claim C3: for every token T, timestamp S, nonce N and supplied
signature, the WeChat (plain-variant) verify operation accepts — returning
the supplied echostr verbatim with status 200 — if and only if the supplied
signature equals the hex SHA-1 digest of the concatenation of [T, S, N]
sorted lexicographically; on mismatch it returns a response with
status 403. -/
theorem verification_accepts_iff (sha1Hex : String → String)
    (token signature timestamp nonce echostr : String) :
    (wechat_verify sha1Hex token signature timestamp nonce echostr =
        { body := echostr, status := 200 } ↔
      signature = sha1Hex (String.join (sortStrings [token, timestamp, nonce]))) ∧
    (signature ≠ sha1Hex (String.join (sortStrings [token, timestamp, nonce])) →
      (wechat_verify sha1Hex token signature timestamp nonce echostr).status = 403) := by
  constructor
  · constructor
    · intro h
      by_cases he : sha1Hex (String.join (sortStrings [token, timestamp, nonce])) = signature
      · exact he.symm
      · have hv : wechat_verify sha1Hex token signature timestamp nonce echostr =
            { body := "Verification failed", status := 403 } := by
          simp [wechat_verify, he]
        rw [hv] at h
        simp [HttpResponse.mk.injEq] at h
    · intro h
      subst h
      simp [wechat_verify]
  · intro h
    have he : ¬ sha1Hex (String.join (sortStrings [token, timestamp, nonce])) = signature :=
      fun h2 => h (Eq.symm h2)
    simp [wechat_verify, he]

/-- Witness for the C3 theorem: a concrete hash function and inputs where
the signature mismatches, so the hypothesis of the 403 conjunct is
dischargeable. -/
theorem verification_accepts_iff_witness :
    "bad" ≠ (fun _ => "digest") (String.join (sortStrings ["tok", "111", "222"])) ∧
    (wechat_verify (fun _ => "digest") "tok" "bad" "111" "222" "abc123").status = 403 := by
  refine ⟨by decide, ?_⟩
  exact (verification_accepts_iff (fun _ => "digest") "tok" "bad" "111" "222" "abc123").2
    (by decide)

/-- Claim C4: for every inbound message without a 'content' key (image and
event message types），`GroqProvider.process` and `TencentProvider.process`
return a synchronous result (async=False) whose text content is non-empty;
for every text message (content key present) they enqueue a job and return
async=True with no 'content' key at all — so the immediate return never
contains the final answer text. -/
theorem process_sync_contract (model : Option String) (params : Params)
    (fu : Option String) (src : String)
    (hfu : params.from_user = some fu) (hsrc : params.source = some src) :
    (params.content = none →
      ∃ r, groqProcess model params = .ok (r, none) ∧ r.isAsync = false ∧
        ∃ t, r.content = some t ∧ t ≠ "") ∧
    (params.content = none →
      ∃ r, tencentProcess model params = .ok (r, none) ∧ r.isAsync = false ∧
        ∃ t, r.content = some t ∧ t ≠ "") ∧
    (∀ q, params.content = some q →
      ∃ r j, groqProcess model params = .ok (r, some j) ∧ r.isAsync = true ∧
        r.content = none) ∧
    (∀ q, params.content = some q →
      ∃ r j, tencentProcess model params = .ok (r, some j) ∧ r.isAsync = true ∧
        r.content = none) := by
  refine ⟨?_, ?_, ?_, ?_⟩
  · intro h
    refine ⟨{ content := some "Sorry, I can only process text messages.",
              provider := "Groq", model := model, isAsync := false }, ?_, rfl,
            "Sorry, I can only process text messages.", rfl, by decide⟩
    simp [groqProcess, h]
  · intro h
    refine ⟨{ content := some "Sorry, I can only process text messages.",
              provider := "Tencent", model := model, isAsync := false }, ?_, rfl,
            "Sorry, I can only process text messages.", rfl, by decide⟩
    simp [tencentProcess, h]
  · intro q h
    refine ⟨{ content := none, provider := "Groq/" ++ pyStr model,
              model := model, isAsync := true },
            { user_id := fu, query := q, model := model, source := src }, ?_, rfl, rfl⟩
    simp only [groqProcess, h, hfu, hsrc]
    rfl
  · intro q h
    refine ⟨{ content := none, provider := "Tencent/" ++ pyStr model,
              model := model, isAsync := true },
            { user_id := fu, query := q, model := model, source := src }, ?_, rfl, rfl⟩
    simp only [tencentProcess, h, hfu, hsrc]
    rfl

/-- Witness for the C4 theorem at a concrete text message and a concrete
image message. -/
theorem process_sync_contract_witness :
    (∃ r j, groqProcess none
        { content := some (some "hello"), from_user := some (some "u"),
          source := some "wechat" } = .ok (r, some j) ∧
      r.isAsync = true ∧ r.content = none) ∧
    (∃ r, tencentProcess none
        { from_user := some (some "u"), media_id := some (some "m1"),
          source := some "wechat" } = .ok (r, none) ∧
      r.isAsync = false ∧ ∃ t, r.content = some t ∧ t ≠ "") := by
  constructor
  · exact (process_sync_contract none
      { content := some (some "hello"), from_user := some (some "u"),
        source := some "wechat" } (some "u") "wechat" rfl rfl).2.2.1 (some "hello") rfl
  · exact (process_sync_contract none
      { from_user := some (some "u"), media_id := some (some "m1"),
        source := some "wechat" } (some "u") "wechat" rfl rfl).2.1 rfl

set_option maxRecDepth 8192 in
/-- Claim C5, code-bug evidence: `WechatAdapter._build_text_response`
ignores its `content` argument, so `WechatAdapter.format_response` for an
async result returns the same fixed image envelope whatever the result
holds, and that envelope does not contain the placeholder
"正在思考，请稍候..." that the claim (and the function's own docstring and
its commented-out text envelope) promise. -/
theorem format_response_placeholder_missing :
    (∀ (fu tu c1 c2 : String) (ts : Nat),
      wechat_build_text_response fu tu c1 ts = wechat_build_text_response fu tu c2 ts) ∧
    (∀ (c1 c2 : Option String) (p1 p2 : String) (m1 m2 : Option String)
       (params : Params) (ts : Nat),
      wechat_format_response { content := c1, provider := p1, model := m1, isAsync := true }
          params ts =
        wechat_format_response { content := c2, provider := p2, model := m2, isAsync := true }
          params ts) ∧
    (∃ b, wechat_format_response
        { content := none, provider := "Groq/m", model := some "m", isAsync := true }
        { to_user := some (some "user"), from_user := some (some "oa") } 0 = .ok b ∧
      b.status = 200 ∧
      charsContain "正在思考，请稍候...".data b.body.data = false) := by
  refine ⟨fun fu tu c1 c2 ts => rfl, fun c1 c2 p1 p2 m1 m2 params ts => rfl,
          ⟨_, rfl, rfl, by decide⟩⟩

/-- Claim C6, counterexample: a POST whose wecom extraction fails (the
decrypt step raises) still reaches the Groq handler's `process`
(`handle_request` checks nothing between `extract_params` and `process`),
and the HTTP response is a 500 server error, not a client error. -/
theorem extraction_failure_counterexample :
    ∃ tr, handle_post_wecom_groq id none 0 (Except.error "Padding check failed") = .ok tr ∧
      tr.processCalled = true ∧ tr.response.status = 500 ∧
      ¬ (400 ≤ tr.response.status ∧ tr.response.status < 500) := by
  exact ⟨_, rfl, rfl, rfl, by decide⟩

/-- Claim C6, amended: for every POST whose parameter extraction fails, no
deferred job is enqueued; but the dispatch path does not return a
client-error response without invoking the handler. For the wecom adapter
the handler's `process` IS invoked (on the error dictionary) and the
response is a 500 server error produced when `format_response` hits the
missing sender field; for the wechat adapter the extraction exception
propagates uncaught out of the request handler. -/
theorem extraction_failure_amended (encrypt : String → String)
    (model : Option String) (ts : Nat) (e : String) :
    (∃ tr, handle_post_wecom_groq encrypt model ts (.error e) = .ok tr ∧
       tr.processCalled = true ∧ tr.enqueued = none ∧
       tr.response = { body := "Error processing request", status := 500 }) ∧
    handle_post_wechat_groq model ts none = .error (.parseError "ET.fromstring") ∧
    handle_post_wechat_groq model ts (some ({} : WechatXml)) =
      .error (.attributeError "NoneType object has no attribute text: MsgType") := by
  exact ⟨⟨_, rfl, rfl, rfl, rfl⟩, rfl, rfl⟩

/-- Claim C7, counterexample: `WechatAdapter.extract_params` raises
uncaught — `ParseError` on an unparseable body, `AttributeError` on a text
message missing its `Content` element — instead of surfacing an explicit
extraction-error value. -/
theorem extraction_totality_counterexample :
    wechat_extract_params none = .error (.parseError "ET.fromstring") ∧
    wechat_extract_params (some
        { msg_type := some (some "text"), from_user := some (some "u"),
          to_user := some (some "oa"), create_time := some (some "123") }) =
      .error (.attributeError "NoneType object has no attribute text: Content") := by
  exact ⟨rfl, rfl⟩

/-- Claim C7, amended: only `WecomAdapter.extract_params` is total — every
failure of the decrypt/parse step is surfaced in-band as a dictionary whose
'error' key carries the failure reason, and every successful parse yields a
message dictionary without an 'error' key; `WechatAdapter.extract_params`
instead propagates parsing exceptions to its caller. -/
theorem extraction_totality_amended :
    (∀ e, wecom_extract_params (.error e) = { error := some e }) ∧
    (∀ msg, (wecom_extract_params (.ok msg)).error = none ∧
       (wecom_extract_params (.ok msg)).msg_type = some (some msg.type)) ∧
    wechat_extract_params none = .error (.parseError "ET.fromstring") := by
  refine ⟨fun e => rfl, ?_, rfl⟩
  intro msg
  unfold wecom_extract_params
  by_cases h1 : msg.type = "text" <;> by_cases h2 : msg.type = "image" <;>
    by_cases h3 : msg.type = "event" <;> simp [h1, h2, h3]

/-- Claim C8, counterexample: resolving an unregistered source or provider
name raises `ValueError`, and no code on the dispatch path catches it or
maps it to an HTTP response: the embedded pipeline ends in an uncaught
exception (which the web framework's default handling reports as a 500
server error), never in a program-built client (4xx) error response. -/
theorem dispatch_resolution_counterexample :
    resolve (fun _ => none) "telegram" "groq" none =
      .error (.valueError "Unsupported source type: telegram") ∧
    create_provider_handler (fun _ => none) "openai" (some "gpt-4") =
      .error (.valueError "Unsupported provider: openai") := by
  exact ⟨rfl, rfl⟩

/-- Claim C8, amended: resolving a registered (source, provider) pair with
an explicit non-empty model name yields an adapter and a handler carrying
that model; resolving an unregistered source or provider name raises a
`ValueError` configuration error that propagates uncaught out of the
dispatch path (no code in the repository converts it into a client-error
response). -/
theorem dispatch_resolution_amended (env : String → Option String)
    (s p m : String) (hm : m ≠ "")
    (ha : pyLower s = "wechat" ∨ pyLower s = "wecom")
    (kp : ProviderKind) (hp : providerKindOfName (pyLower p) = some kp) :
    (∃ a h, resolve env s p (some m) = .ok (a, h) ∧ h.model = some m) ∧
    (∀ s2 : String, pyLower s2 ≠ "wechat" → pyLower s2 ≠ "wecom" → ∀ p2 m2,
      resolve env s2 p2 m2 =
        .error (.valueError ("Unsupported source type: " ++ pyLower s2))) ∧
    (∀ p2 : String, providerKindOfName (pyLower p2) = none → ∀ m2,
      create_provider_handler env p2 m2 =
        .error (.valueError ("Unsupported provider: " ++ p2))) := by
  have hinit : providerInit env kp (some m) = .ok { kind := kp, model := some m } := by
    simp [providerInit, hm]
  have hch : create_provider_handler env p (some m) = .ok { kind := kp, model := some m } := by
    unfold create_provider_handler
    simp only [hp, hinit]
  refine ⟨?_, ?_, ?_⟩
  · rcases ha with h | h
    · refine ⟨.wechat, { kind := kp, model := some m }, ?_, rfl⟩
      unfold resolve loadAdapter
      rw [h]
      simp only [hch]
      rfl
    · refine ⟨.wecom, { kind := kp, model := some m }, ?_, rfl⟩
      unfold resolve loadAdapter
      rw [h]
      simp only [hch]
      rfl
  · intro s2 h1 h2 p2 m2
    unfold resolve loadAdapter
    simp [h1, h2]
    rfl
  · intro p2 hp2 m2
    unfold create_provider_handler
    simp only [hp2]

/-- Witness for the amended C8 theorem at the registered pair
("wechat", "groq") with an explicit model. -/
theorem dispatch_resolution_amended_witness :
    ∃ a h, resolve (fun _ => none) "wechat" "groq" (some "llama3-70b") = .ok (a, h) ∧
      h.model = some "llama3-70b" :=
  (dispatch_resolution_amended (fun _ => none) "wechat" "groq" "llama3-70b"
    (by decide) (Or.inl (by decide)) ProviderKind.groq (by decide)).1

/-- Claim C9, code-bug evidence: `DeepseekProvider.__init__` with no model
reads `Config.DEEPSEEK_CHAT`, an attribute `Config` does not define
(config.py defines `DEEPSEEK_DS_V3` instead), so construction raises
`AttributeError` — which `_create_provider_handler` masks as
`ValueError: Unsupported provider: deepseek` — whatever the environment
holds; every other registered provider's constructor succeeds with its
default-model attribute. -/
theorem deepseek_default_model_bug (env : String → Option String) :
    providerInit env ProviderKind.deepseek none =
      .error (.attributeError "type object Config has no attribute DEEPSEEK_CHAT") ∧
    create_provider_handler env "deepseek" none =
      .error (.valueError "Unsupported provider: deepseek") ∧
    (∀ kind : ProviderKind, kind ≠ ProviderKind.deepseek →
      providerInit env kind none =
        .ok { kind := kind, model := env (providerDefaultModelAttr kind) }) := by
  refine ⟨rfl, rfl, ?_⟩
  intro kind hk
  cases kind <;> first
    | exact absurd rfl hk
    | rfl

/-- Witness for the C9 theorem at a concrete environment and the Groq
provider kind. -/
theorem deepseek_default_model_bug_witness :
    providerInit (fun _ => some "m") ProviderKind.deepseek none =
      .error (.attributeError "type object Config has no attribute DEEPSEEK_CHAT") ∧
    providerInit (fun _ => some "m") ProviderKind.groq none =
      .ok { kind := ProviderKind.groq, model := some "m" } :=
  ⟨(deepseek_default_model_bug (fun _ => some "m")).1,
   (deepseek_default_model_bug (fun _ => some "m")).2.2 ProviderKind.groq (by decide)⟩

/-- Claim C10: for every deferred Groq or Tencent job whose backend call
raises, the worker task swallows the exception (nothing escapes, so the
worker stays alive), runs its error-notification handler exactly once,
every message it sends is the short error notice, and when the notification
channel is constructible the notice is delivered in exactly one
`send_message` call; a failure of the notification attempt itself is
swallowed. -/
theorem deferred_error_isolation (env : TaskEnv) (u q m src e : String)
    (hsrc : src = "wechat" ∨ src = "wecom")
    (hb : env.backend = .error e) :
    ((groqTask env u q m src).raised = none ∧
     (groqTask env u q m src).notifyTried = true ∧
     (∀ call ∈ (groqTask env u q m src).sends,
        call = { user_id := u, message := groqErrorNotice e, model := "Unknown" }) ∧
     (env.notifyAdapterInit = .ok () →
        (groqTask env u q m src).sends =
          [{ user_id := u, message := groqErrorNotice e, model := "Unknown" }])) ∧
    ((tencentTask env u q m src).raised = none ∧
     (tencentTask env u q m src).notifyTried = true ∧
     (∀ call ∈ (tencentTask env u q m src).sends,
        call = { user_id := u, message := tencentErrorNotice e, model := "Unknown" }) ∧
     (env.notifyAdapterInit = .ok () →
        (tencentTask env u q m src).sends =
          [{ user_id := u, message := tencentErrorNotice e, model := "Unknown" }])) := by
  have hs : (src = "wechat" ∨ src = "wecom") = True := by
    rcases hsrc with h | h <;> simp [h]
  constructor
  · cases hinit : env.notifyAdapterInit with
    | ok v =>
        cases v
        simp [groqTask, groqTaskBody, hb, hs, hinit]
    | error err =>
        simp [groqTask, groqTaskBody, hb, hs, hinit]
  · cases hinit : env.notifyAdapterInit with
    | ok v =>
        cases v
        simp [tencentTask, tencentTaskBody, hb, hs, hinit]
    | error err =>
        simp [tencentTask, tencentTaskBody, hb, hs, hinit]

/-- Witness for the C10 theorem at a concrete failing environment. -/
theorem deferred_error_isolation_witness :
    (groqTask ⟨Except.error "boom", Except.ok (), true, Except.ok (), true⟩
      "u" "q" "m" "wechat").raised = none ∧
    (groqTask ⟨Except.error "boom", Except.ok (), true, Except.ok (), true⟩
      "u" "q" "m" "wechat").sends =
        [{ user_id := "u", message := groqErrorNotice "boom", model := "Unknown" }] :=
  ⟨(deferred_error_isolation ⟨Except.error "boom", Except.ok (), true, Except.ok (), true⟩
      "u" "q" "m" "wechat" "boom" (Or.inl rfl) rfl).1.1,
   (deferred_error_isolation ⟨Except.error "boom", Except.ok (), true, Except.ok (), true⟩
      "u" "q" "m" "wechat" "boom" (Or.inl rfl) rfl).1.2.2.2 rfl⟩

end WechatRobot
